import Mathlib

/-!
# Verification of the crypto trading bot

Shallow embedding of the decision logic of the repository (source files
`main.py`, `test.py`, `telegram-bot.py`).  Prices and indicator values are
embedded as rationals (`ℚ`); Python floats are treated as exact arithmetic,
as the spec's scenarios do.  Pure functions of the source become Lean
functions; the module-global `training_count` and the presence of the
persisted model file become an explicit state record threaded through
`train_or_load_model`.
-/

namespace CryptoBot

/-- Module-level constant `trailing_stop_loss_pct = 0.02` (main.py line 41). -/
def trailing_stop_loss_pct : ℚ := 2 / 100

/-- Module-level constant `take_profit_ratio = 0.05` (main.py line 42). -/
def take_profit_ratio : ℚ := 5 / 100

/-- `trailing_stop_loss(entry_price, current_price)` (main.py lines 173-176):
`stop_loss_price = entry_price * (1 - trailing_stop_loss_pct)` and the result is
`max(stop_loss_price, current_price * (1 - trailing_stop_loss_pct))`.  The
function takes only the entry price and the current price; it has no access to
any previously returned stop. -/
def trailing_stop_loss (entry_price current_price : ℚ) : ℚ :=
  max (entry_price * (1 - trailing_stop_loss_pct))
      (current_price * (1 - trailing_stop_loss_pct))

/-- The trailing stop is monotone in the current price (entry price fixed). -/
lemma trailing_stop_loss_mono (entry_price : ℚ) {c₁ c₂ : ℚ} (h : c₁ ≤ c₂) :
    trailing_stop_loss entry_price c₁ ≤ trailing_stop_loss entry_price c₂ := by
  unfold trailing_stop_loss
  exact max_le_max le_rfl (by
    apply mul_le_mul_of_nonneg_right h
    norm_num [trailing_stop_loss_pct])

/-- C1 — the claim as stated is false on the code: `trailing_stop_loss` does not
take the previous stop into account, so after the price sequence 100 → 105 → 102
the third returned stop is 99.96, not the claimed 102.90. -/
theorem C1_claimed_sequence_false :
    trailing_stop_loss 100 102 ≠ 1029 / 10 := by
  unfold trailing_stop_loss trailing_stop_loss_pct
  rw [max_eq_right (by norm_num)]
  norm_num

/-- C1 (amended) — each call recomputes the stop from the entry price and the
current price only: `max(entry_price × 0.98, current_price × 0.98)`.  With
entry_price = 100 the price sequence 100 → 105 → 102 yields the stop sequence
98.00 → 102.90 → 99.96; the stop falls back after the price retreats. -/
theorem C1_trailing_stop_sequence :
    trailing_stop_loss 100 100 = 98 ∧
    trailing_stop_loss 100 105 = 1029 / 10 ∧
    trailing_stop_loss 100 102 = 2499 / 25 ∧
    trailing_stop_loss 100 102 < trailing_stop_loss 100 105 := by
  unfold trailing_stop_loss trailing_stop_loss_pct
  refine ⟨by norm_num, ?_, ?_, ?_⟩
  · rw [max_eq_right (by norm_num)]; norm_num
  · rw [max_eq_right (by norm_num)]; norm_num
  · rw [max_eq_right (by norm_num), max_eq_right (by norm_num)]; norm_num

/-- C2 — for a long position (fixed entry price), along any non-decreasing
sequence of current prices the returned stop prices are non-decreasing. -/
theorem C2_stop_monotone (entry_price : ℚ) (prices : List ℚ)
    (h : prices.Sorted (· ≤ ·)) :
    (prices.map (trailing_stop_loss entry_price)).Sorted (· ≤ ·) :=
  h.map _ fun _ _ hab => trailing_stop_loss_mono entry_price hab

/-- C2 witness — concrete instance: entry 100, prices 100 ≤ 105 ≤ 105. -/
theorem C2_stop_monotone_witness :
    (([100, 105, 105] : List ℚ).map (trailing_stop_loss 100)).Sorted (· ≤ ·) :=
  C2_stop_monotone 100 [100, 105, 105] (by
    simp [List.sorted_cons]
    norm_num)

/-- The outcome of the HTTP request made by `fetch_latest_sentiment`
(main.py lines 100-122): either the request (or any later step of the `try`
block) raised an exception, or a response with a status code and a list of
article titles came back. -/
inductive FetchOutcome where
  | exn
  | response (status_code : ℕ) (titles : List String)

/-- `fetch_latest_sentiment()` (main.py lines 100-122).  The text-sentiment
scorer `get_sentiment` (a TextBlob call, external) is a parameter.  On status
200 the article titles are joined with spaces and scored; on any other status
the function logs and returns 0; an exception anywhere in the `try` block is
caught and 0 is returned.  The function is total: no error propagates. -/
def fetch_latest_sentiment (get_sentiment : String → ℚ) : FetchOutcome → ℚ
  | .exn => 0
  | .response status titles =>
      if status = 200 then get_sentiment (String.intercalate " " titles) else 0

/-- A failed sentiment fetch: the collaborator raised, or responded with a
non-success status. -/
def FetchFailed : FetchOutcome → Prop := fun o =>
  o = .exn ∨ ∃ s titles, o = .response s titles ∧ s ≠ 200

/-- C5 — whenever the sentiment fetch fails (exception or non-success status),
`fetch_latest_sentiment` returns the neutral score 0; being a total function it
propagates no error to its caller. -/
theorem C5_sentiment_failure_neutral (get_sentiment : String → ℚ)
    (o : FetchOutcome) (h : FetchFailed o) :
    fetch_latest_sentiment get_sentiment o = 0 := by
  rcases h with h | ⟨s, titles, rfl, hs⟩
  · subst h; rfl
  · simp [fetch_latest_sentiment, hs]

/-- C5 witness — a scorer that would return 1 on any text, applied to an
exception outcome and to a 500 response, still yields 0. -/
theorem C5_sentiment_failure_neutral_witness :
    fetch_latest_sentiment (fun _ => 1) FetchOutcome.exn = 0 ∧
    fetch_latest_sentiment (fun _ => 1) (FetchOutcome.response 500 []) = 0 :=
  ⟨C5_sentiment_failure_neutral _ _ (Or.inl rfl),
   C5_sentiment_failure_neutral _ _ (Or.inr ⟨500, [], rfl, by norm_num⟩)⟩

/-- The risk parameters in effect during a decision cycle, as a function of the
latest sentiment score.  In the source every use of a risk parameter reads the
module-level constants of main.py lines 41-42 (`trailing_stop_loss` reads
`trailing_stop_loss_pct`); no code path consults a sentiment score — the value
of `fetch_latest_sentiment` is never consumed by `main()` — so the pair is the
same for every score. -/
def risk_parameters_used (_score : ℚ) : ℚ × ℚ :=
  (trailing_stop_loss_pct, take_profit_ratio)

/-- Modelled from the spec (§4.2): the three-bucket rule table
`risk_parameters_for`, which has no counterpart in the source.  score < −0.5 →
(0.03, 0.03); −0.5 ≤ score ≤ 0.5 → (0.02, 0.05); score > 0.5 → (0.015, 0.07). -/
def risk_parameters_for_spec (score : ℚ) : ℚ × ℚ :=
  if score < -(1 / 2) then (3 / 100, 3 / 100)
  else if score ≤ 1 / 2 then (2 / 100, 5 / 100)
  else (15 / 1000, 7 / 100)

/-- C4 — the claim as stated is false on the code: a sentiment score of −0.7
yields trailing_stop_pct 0.02 (the module constant), not the 0.03 the spec's
bucket table prescribes. -/
theorem C4_bucket_table_false :
    (risk_parameters_used (-(7 / 10))).1 = 2 / 100 ∧
    (risk_parameters_for_spec (-(7 / 10))).1 = 3 / 100 ∧
    risk_parameters_used (-(7 / 10)) ≠ risk_parameters_for_spec (-(7 / 10)) := by
  refine ⟨rfl, ?_, ?_⟩
  · unfold risk_parameters_for_spec
    rw [if_pos (by norm_num)]
  · unfold risk_parameters_used risk_parameters_for_spec
    rw [if_pos (by norm_num)]
    intro h
    have := congrArg Prod.fst h
    norm_num [trailing_stop_loss_pct] at this

/-- C4 (amended) — the risk parameters used in a decision cycle are the fixed
module constants (0.02, 0.05) for every sentiment score; there is no
sentiment-dependent preset selection, so any two scores (e.g. −0.7 and any
other) select the same parameters. -/
theorem C4_risk_params_constant (score other : ℚ) :
    risk_parameters_used score = (2 / 100, 5 / 100) ∧
    risk_parameters_used score = risk_parameters_used other :=
  ⟨rfl, rfl⟩

/-- C9 — the trailing-stop computation equals
`max(entry_price, current_price) × (1 − trailing_stop_loss_pct)`, is therefore
never below the initial stop `entry_price × (1 − trailing_stop_loss_pct)`, and
(being a plain function of its two arguments) depends on no previously
returned stop. -/
theorem C9_stop_stateless_formula (entry_price current_price : ℚ) :
    trailing_stop_loss entry_price current_price
      = max entry_price current_price * (1 - trailing_stop_loss_pct) ∧
    entry_price * (1 - trailing_stop_loss_pct)
      ≤ trailing_stop_loss entry_price current_price := by
  constructor
  · unfold trailing_stop_loss
    rcases le_total entry_price current_price with h | h
    · rw [max_eq_right h, max_eq_right]
      exact mul_le_mul_of_nonneg_right h (by norm_num [trailing_stop_loss_pct])
    · rw [max_eq_left h, max_eq_left]
      exact mul_le_mul_of_nonneg_right h (by norm_num [trailing_stop_loss_pct])
  · exact le_max_left _ _

/-- One OHLCV bar (main.py lines 53-55: columns timestamp, open, high, low,
close, volume). -/
structure Bar where
  timestamp : ℕ
  «open» : ℚ
  high : ℚ
  low : ℚ
  close : ℚ
  volume : ℚ

/-- Rolling mean in pandas semantics (`Series.rolling(window).mean()` with the
default `min_periods = window`, which is what the `ta` library's SMA and
Bollinger middle band use with `fillna=False`): the value at index `i` is the
mean of the `window` values ending at `i`, and is undefined (NaN, here `none`)
while fewer than `window` values are available. -/
def rolling_mean (window : ℕ) (xs : List ℚ) (i : ℕ) : Option ℚ :=
  if window ≤ i + 1 ∧ i < xs.length then
    some (((xs.take (i + 1)).drop (i + 1 - window)).sum / (window : ℚ))
  else none

/-- One row of the frame returned by `compute_technical_indicators` (main.py
lines 70-90): columns close, volume, bb_middle, bb_upper, bb_lower, sma, rsi.
The rationally-representable columns are embedded with their values; bb_upper,
bb_lower and rsi involve a square root (rolling standard deviation) and
exponential smoothing, so only their definedness (NaN or not) is carried —
they share the rolling NaN-padding of their windows (20 and 14). -/
structure FeatureVector where
  close : ℚ
  volume : ℚ
  bb_middle : Option ℚ
  bb_upper_defined : Bool
  bb_lower_defined : Bool
  sma : Option ℚ
  rsi_defined : Bool

/-- `compute_technical_indicators(data)` (main.py lines 65-91): applies the
`ta` library's indicators over the whole frame and keeps the seven columns
above.  Every indicator is a rolling/recursive statistic that NaN-pads the
rows before its window is filled and never raises for short input, so the
output has exactly one row per input bar, whatever the input length — there is
no `InsufficientData` (or any other) error path in the function.  The SMA
window is a parameter (`ta`'s `trend_sma_slow` and the repository's own
`apply_technical_indicators` in test.py line 35, which pins it to 50); the
Bollinger window is 20 and the RSI window 14 (test.py lines 26-30). -/
def compute_technical_indicators (sma_window : ℕ) (bars : List Bar) :
    List FeatureVector :=
  let closes := bars.map Bar.close
  (List.range bars.length).map fun i =>
    { close := closes.getD i 0
      volume := (bars.map Bar.volume).getD i 0
      bb_middle := rolling_mean 20 closes i
      bb_upper_defined := decide (20 ≤ i + 1)
      bb_lower_defined := decide (20 ≤ i + 1)
      sma := rolling_mean sma_window closes i
      rsi_defined := decide (14 ≤ i + 1)
      }

lemma compute_technical_indicators_length (sma_window : ℕ) (bars : List Bar) :
    (compute_technical_indicators sma_window bars).length = bars.length := by
  simp [compute_technical_indicators]

lemma compute_technical_indicators_sma_none {sma_window : ℕ} {bars : List Bar}
    (h : bars.length < sma_window) :
    ∀ v ∈ compute_technical_indicators sma_window bars, v.sma = none := by
  intro v hv
  simp only [compute_technical_indicators, List.mem_map, List.mem_range] at hv
  obtain ⟨i, hi, rfl⟩ := hv
  simp only [rolling_mean]
  rw [if_neg]
  omega

/-- A concrete 15-bar history (closes 1,…,15; the spec's Scenario 1 size). -/
def bars15 : List Bar :=
  (List.range 15).map fun i =>
    { timestamp := i, «open» := i + 1, high := i + 1, low := i + 1,
      close := i + 1, volume := 1 }

/-- C3 — the claim as stated is false on the code: fed 15 bars (fewer than the
50-bar SMA window), `compute_technical_indicators` does not fail and does not
emit nothing — it returns 15 rows, each a partial feature vector whose sma
entry is undefined (NaN). -/
theorem C3_insufficient_data_false :
    compute_technical_indicators 50 bars15 ≠ [] ∧
    (compute_technical_indicators 50 bars15).length = 15 ∧
    ∀ v ∈ compute_technical_indicators 50 bars15, v.sma = none := by
  have hlen : (compute_technical_indicators 50 bars15).length = 15 := by
    rw [compute_technical_indicators_length]
    simp [bars15]
  refine ⟨?_, hlen, ?_⟩
  · intro h
    rw [h] at hlen
    simp at hlen
  · apply compute_technical_indicators_sma_none
    simp [bars15]

/-- C3 (amended) — for every bar sequence shorter than the SMA window, the
feature computation does not fail: it returns one (partial) feature vector per
input bar, with the sma entry undefined (NaN) in every row. -/
theorem C3_short_input_partial_rows (sma_window : ℕ) (bars : List Bar)
    (h : bars.length < sma_window) :
    (compute_technical_indicators sma_window bars).length = bars.length ∧
    ∀ v ∈ compute_technical_indicators sma_window bars, v.sma = none :=
  ⟨compute_technical_indicators_length sma_window bars,
   compute_technical_indicators_sma_none h⟩

/-- C3 (amended) witness — the single-bar case, window 50. -/
theorem C3_short_input_partial_rows_witness :
    (compute_technical_indicators 50
        [{ timestamp := 0, «open» := 1, high := 1, low := 1, close := 1,
           volume := 1 }]).length = 1 ∧
    ∀ v ∈ compute_technical_indicators 50
        [{ timestamp := 0, «open» := 1, high := 1, low := 1, close := 1,
           volume := 1 }], v.sma = none :=
  C3_short_input_partial_rows 50 _ (by simp)

/-- One row of the feature table consumed by `train_or_load_model`: the four
model features `rsi, bb_upper, bb_lower, sma` (main.py line 135) and the
`close` column used to build the labels (line 136). -/
structure FeatureRow where
  rsi : ℚ
  bb_upper : ℚ
  bb_lower : ℚ
  sma : ℚ
  close : ℚ

/-- The process state read and written by `train_or_load_model`: the
module-global `training_count` (main.py line 40) and whether the persisted
model file `ml_model.joblib` exists (`os.path.exists(model_path)`,
line 131). -/
structure TrainState where
  training_count : ℕ
  model_exists : Bool

/-- What `train_or_load_model` did: returned `None` (empty-data guard,
lines 132-134); called `model.fit` with the given (empty) sample matrix and
labels and the call raised — sklearn's `RandomForestClassifier.fit` raises
`ValueError` when given 0 samples, and `train_or_load_model` has no
`try`/`except`, so the exception propagates out before the `dump` and before
the counter reset of line 141; fitted a fresh classifier on the given sample
matrix and labels and persisted it (lines 135-141); or loaded the persisted
model (lines 142-144). -/
inductive TrainResult where
  | noModel
  | fitRaised (samples : List (List ℚ)) (labels : List ℕ)
  | trained (samples : List (List ℚ)) (labels : List ℕ)
  | loaded

/-- Whether the call handed a model back to its caller (a freshly trained or a
loaded one), as opposed to returning `None` or raising out of `fit`. -/
def TrainResult.returns_model : TrainResult → Bool
  | .trained _ _ => true
  | .loaded => true
  | .noModel => false
  | .fitRaised _ _ => false

/-- `y = np.where(data["close"].shift(-1) > data["close"], 1, 0)` (main.py
line 136): label `i` is 1 when row `i+1` exists and its close is strictly
greater than row `i`'s close; the final row compares its close against NaN
(`shift(-1)` pads with NaN), and `NaN > x` is false, so it gets 0. -/
def shift_labels (closes : List ℚ) : List ℕ :=
  (List.range closes.length).map fun i =>
    match closes[i + 1]?, closes[i]? with
    | some next, some cur => if cur < next then 1 else 0
    | _, _ => 0

/-- `train_or_load_model(data, retrain_interval=100)` (main.py lines 126-145).
The first line increments the global counter (`"training_count" in globals()`
is always true once the module has loaded, so the `else 0` branch is dead).
If no persisted model exists or the incremented counter has reached the
interval, the train branch runs: an empty frame returns `None` with the
counter left at its incremented value; otherwise `model.fit` is called on
`X[:-1]` (the feature rows minus the last) with labels `y[:-1]`.  When that
slice is empty — a one-row frame — sklearn's `fit` raises `ValueError` and
the uncaught exception propagates, so the model is not persisted and the
counter keeps its incremented value; on a successful fit the model is
persisted and the counter resets to 0.  Outside the train branch the
persisted model is loaded and the incremented counter is kept. -/
def train_or_load_model (s : TrainState) (data : List FeatureRow)
    (retrain_interval : ℕ) : TrainResult × TrainState :=
  let count := s.training_count + 1
  if s.model_exists = false ∨ retrain_interval ≤ count then
    if data.isEmpty then
      (.noModel, { s with training_count := count })
    else
      let X := (data.map fun r => [r.rsi, r.bb_upper, r.bb_lower, r.sma]).dropLast
      let y := (shift_labels (data.map FeatureRow.close)).dropLast
      if X.isEmpty then
        (.fitRaised X y, { s with training_count := count })
      else
        (.trained X y, { training_count := 0, model_exists := true })
  else
    (.loaded, { s with training_count := count })

lemma shift_labels_length (closes : List ℚ) :
    (shift_labels closes).length = closes.length := by
  simp [shift_labels]

/-- The labels actually passed to `fit` (after the `[:-1]` slice) pair each
row's close with the next row's close. -/
lemma shift_labels_dropLast (closes : List ℚ) :
    (shift_labels closes).dropLast
      = List.zipWith (fun cur next => if cur < next then 1 else 0)
          closes closes.tail := by
  apply List.ext_getElem
  · simp [shift_labels_length, List.length_tail]
  · intro i h₁ h₂
    have hi : i < closes.length - 1 := by
      simpa [shift_labels_length] using h₁
    have hi1 : i + 1 < closes.length := by omega
    rw [List.getElem_dropLast, List.getElem_zipWith, List.getElem_tail]
    simp only [shift_labels, List.getElem_map, List.getElem_range,
      List.getElem?_eq_getElem hi1, List.getElem?_eq_getElem (by omega : i < closes.length)]

lemma isEmpty_false_of_two_le {data : List FeatureRow} (h2 : 2 ≤ data.length) :
    data.isEmpty = false := by
  cases data with
  | nil => simp at h2
  | cons a l => rfl

/-- With at least two feature rows, the `X[:-1]` slice handed to `fit` is
non-empty (the fit succeeds). -/
lemma samples_isEmpty_false {data : List FeatureRow} (h2 : 2 ≤ data.length) :
    ((data.map fun r => [r.rsi, r.bb_upper, r.bb_lower, r.sma]).dropLast).isEmpty
      = false := by
  rcases data with _ | ⟨a, _ | ⟨b, l⟩⟩
  · simp at h2
  · simp at h2
  · rfl

/-- C6 — with at least 2 feature rows (and the train branch taken, e.g. no
persisted model), training fits the classifier on all feature rows but the
last, with one label per kept row equal to 1 exactly when the next row's
close is strictly greater than that row's close; the final row is excluded
from both the samples and the labels. -/
theorem C6_training_labels (s : TrainState) (data : List FeatureRow)
    (retrain_interval : ℕ) (hm : s.model_exists = false)
    (h2 : 2 ≤ data.length) :
    ∃ X,
      (train_or_load_model s data retrain_interval).1
        = TrainResult.trained X ((shift_labels (data.map FeatureRow.close)).dropLast) ∧
      X.length = data.length - 1 ∧
      ((shift_labels (data.map FeatureRow.close)).dropLast).length = data.length - 1 ∧
      (shift_labels (data.map FeatureRow.close)).dropLast
        = List.zipWith (fun cur next => if cur < next then 1 else 0)
            (data.map FeatureRow.close) (data.map FeatureRow.close).tail := by
  refine ⟨(data.map fun r => [r.rsi, r.bb_upper, r.bb_lower, r.sma]).dropLast,
    ?_, ?_, ?_, shift_labels_dropLast _⟩
  · simp [train_or_load_model, hm, isEmpty_false_of_two_le h2,
      samples_isEmpty_false h2]
  · simp
  · simp [shift_labels_length]

/-- C6 witness — a 3-row table (closes 10, 12, 11) trains on the first 2 rows
with labels [1, 0]. -/
theorem C6_training_labels_witness :
    ∃ X,
      (train_or_load_model ⟨0, false⟩
          [⟨50, 11, 9, 10, 10⟩, ⟨50, 13, 11, 12, 12⟩, ⟨50, 12, 10, 11, 11⟩]
          100).1
        = TrainResult.trained X
            ((shift_labels ((([⟨50, 11, 9, 10, 10⟩, ⟨50, 13, 11, 12, 12⟩,
                ⟨50, 12, 10, 11, 11⟩] : List FeatureRow)).map FeatureRow.close)).dropLast) ∧
      X.length = 3 - 1 ∧
      ((shift_labels ((([⟨50, 11, 9, 10, 10⟩, ⟨50, 13, 11, 12, 12⟩,
          ⟨50, 12, 10, 11, 11⟩] : List FeatureRow)).map FeatureRow.close)).dropLast).length
        = 3 - 1 ∧
      (shift_labels ((([⟨50, 11, 9, 10, 10⟩, ⟨50, 13, 11, 12, 12⟩,
          ⟨50, 12, 10, 11, 11⟩] : List FeatureRow)).map FeatureRow.close)).dropLast
        = List.zipWith (fun cur next => if cur < next then 1 else 0)
            ((([⟨50, 11, 9, 10, 10⟩, ⟨50, 13, 11, 12, 12⟩,
                ⟨50, 12, 10, 11, 11⟩] : List FeatureRow)).map FeatureRow.close)
            ((([⟨50, 11, 9, 10, 10⟩, ⟨50, 13, 11, 12, 12⟩,
                ⟨50, 12, 10, 11, 11⟩] : List FeatureRow)).map FeatureRow.close).tail := by
  have h := C6_training_labels ⟨0, false⟩
    [⟨50, 11, 9, 10, 10⟩, ⟨50, 13, 11, 12, 12⟩, ⟨50, 12, 10, 11, 11⟩] 100
    rfl (by simp)
  simpa using h

/-- C7 — evaluation at the failing input: a feature table with exactly one row
(and no persisted model) passes the `data.empty` guard and reaches the fit
call with an empty sample matrix and empty labels (the `[:-1]` slices remove
the only row), so `fit` raises and the exception propagates — the counter
stays at its incremented value 1 and no model is persisted — instead of the
table being skipped like the empty one is. -/
theorem C7_one_row_reaches_empty_fit :
    (train_or_load_model ⟨0, false⟩ [⟨50, 11, 9, 10, 100⟩] 100).1
      = TrainResult.fitRaised [] [] ∧
    (train_or_load_model ⟨0, false⟩ [⟨50, 11, 9, 10, 100⟩] 100).2
      = ⟨1, false⟩ ∧
    (train_or_load_model ⟨0, false⟩ [] 100).1 = TrainResult.noModel := by
  refine ⟨?_, ?_, ?_⟩
  · simp [train_or_load_model, shift_labels]
  · simp [train_or_load_model]
  · simp [train_or_load_model]

/-- C8 — when the incremented counter reaches the retrain interval, the call
takes the train branch (it does not load the persisted model even when one
exists); with at least two feature rows the fit succeeds, and on that success
the counter is reset to 0. -/
theorem C8_retrain_at_interval (s : TrainState) (data : List FeatureRow)
    (retrain_interval : ℕ) (hc : retrain_interval ≤ s.training_count + 1)
    (h2 : 2 ≤ data.length) :
    (∃ X y, (train_or_load_model s data retrain_interval).1
        = TrainResult.trained X y) ∧
    (train_or_load_model s data retrain_interval).1 ≠ TrainResult.loaded ∧
    (train_or_load_model s data retrain_interval).2.training_count = 0 := by
  refine ⟨⟨(data.map fun r => [r.rsi, r.bb_upper, r.bb_lower, r.sma]).dropLast,
      (shift_labels (data.map FeatureRow.close)).dropLast, ?_⟩, ?_, ?_⟩ <;>
    simp [train_or_load_model, Or.inr hc, isEmpty_false_of_two_le h2,
      samples_isEmpty_false h2]

/-- C8 witness — counter at 99 before the call, interval 100, model present,
two feature rows: the call retrains and resets the counter. -/
theorem C8_retrain_at_interval_witness :
    (∃ X y, (train_or_load_model ⟨99, true⟩
        [⟨50, 11, 9, 10, 10⟩, ⟨50, 13, 11, 12, 12⟩] 100).1
        = TrainResult.trained X y) ∧
    (train_or_load_model ⟨99, true⟩
        [⟨50, 11, 9, 10, 10⟩, ⟨50, 13, 11, 12, 12⟩] 100).1
      ≠ TrainResult.loaded ∧
    (train_or_load_model ⟨99, true⟩
        [⟨50, 11, 9, 10, 10⟩, ⟨50, 13, 11, 12, 12⟩] 100).2.training_count
      = 0 :=
  C8_retrain_at_interval ⟨99, true⟩
    [⟨50, 11, 9, 10, 10⟩, ⟨50, 13, 11, 12, 12⟩] 100 (by decide) (by decide)

/-- C10 — for every retrain interval ≥ 1 and non-empty data, after any call to
`train_or_load_model` that returns a model (a trained or a loaded one — not
the `None` of the empty-data guard, and not an uncaught `fit` exception), the
global counter is strictly below the interval, whatever state the call
started from; hence the counter stays bounded across every sequence of
model-returning calls. -/
theorem C10_count_bounded (s : TrainState) (data : List FeatureRow)
    (retrain_interval : ℕ) (h1 : 1 ≤ retrain_interval) (hd : data ≠ [])
    (hm : ((train_or_load_model s data retrain_interval).1).returns_model
      = true) :
    (train_or_load_model s data retrain_interval).2.training_count
      < retrain_interval := by
  have hne : data.isEmpty = false := by
    cases data with
    | nil => exact absurd rfl hd
    | cons a l => rfl
  by_cases hg : s.model_exists = false ∨ retrain_interval ≤ s.training_count + 1
  · cases hX : ((data.map fun r =>
        [r.rsi, r.bb_upper, r.bb_lower, r.sma]).dropLast).isEmpty with
    | true =>
        rw [train_or_load_model] at hm
        simp [hg, hne, hX, TrainResult.returns_model] at hm
    | false =>
        simp only [train_or_load_model, if_pos hg, hne, hX]
        simp
        omega
  · have hlt : s.training_count + 1 < retrain_interval := by
      push_neg at hg
      omega
    simp only [train_or_load_model, if_neg hg]
    simpa using hlt

/-- C10 witness — interval 1, two-row data, fresh state: the call trains and
returns a model, and the counter ends at 0 < 1. -/
theorem C10_count_bounded_witness :
    (train_or_load_model ⟨0, false⟩
        [⟨50, 11, 9, 10, 10⟩, ⟨50, 13, 11, 12, 12⟩] 1).2.training_count
      < 1 :=
  C10_count_bounded ⟨0, false⟩ [⟨50, 11, 9, 10, 10⟩, ⟨50, 13, 11, 12, 12⟩] 1
    (by omega) (by simp) (by rfl)

end CryptoBot
